import Mathlib

/-!
Verification of the Ledger-Lens bank-statement extraction pipeline
(accounts/pdf_extractor.py, class BankStatementExtractor).

Shallow embedding conventions:
 * Python strings are modelled as lists of characters (Str).  ASCII behaviour
   of str.strip / str.lower / \s / \d is modelled; the inputs of interest are
   ASCII or Arabic text for which the ASCII simplification is exact.
 * Python float amounts are modelled as exact rationals (Q below): every
   amount handled by the program is parsed from a short decimal literal, and
   every comparison or arithmetic step the claims mention is exact on those.
   The single square root in calculate_analytics (variance ** 0.5) is kept
   symbolic in the result type (PyNum.sqrtDiv).
 * Python int() / float() are modelled as partial parsers returning Option
   (underscored integer literals, exponent notation and non-ASCII digits are
   not modelled: no input of the program ever contains them).
 * The regular expressions of the source are embedded as explicit regex
   syntax trees (RE) executed by a backtracking matcher with Python re
   semantics (leftmost match, greedy quantifiers, preference order of
   alternatives).  The matcher is fuel-bounded; the fuel passed at every call
   site strictly exceeds the backtracking depth the patterns can reach.
 * try/except blocks that swallow exceptions and return None are modelled by
   Option-valued computations; exceptions that escape a function are modelled
   explicitly (PipelineResult.exn).
 * The OCR / PDF front end (extract_text_from_pdf and the image helpers) is
   out of scope: process_bank_statement is embedded as a function of the
   ordered page-text list it produces, exactly as the specification's input
   contract states.
-/

namespace LedgerLens

/-! ### Python string primitives -/

abbrev Str := List Char

def S (s : String) : Str := s.data

/-- Python str whitespace (ASCII part): space, tab, newline, CR, FF, VT. -/
def pyIsSpace (c : Char) : Bool :=
  c = ' ' || c = '\t' || c = '\n' || c = '\x0d' || c = '\x0b' || c = '\x0c'

def dropLeading (p : Char → Bool) : Str → Str
  | [] => []
  | c :: rest => if p c then dropLeading p rest else c :: rest

/-- Python str.strip() with no argument (whitespace both ends). -/
def pyStrip (s : Str) : Str :=
  (dropLeading pyIsSpace (dropLeading pyIsSpace s).reverse).reverse

/-- Python s.split(sep) for a one-character separator (keeps empty parts). -/
def splitChar (sep : Char) : Str → List Str
  | [] => [[]]
  | c :: rest =>
    match splitChar sep rest with
    | [] => [[]]
    | h :: t => if c = sep then [] :: h :: t else (c :: h) :: t

def wsWordsAux (acc : Str) : Str → List Str
  | [] => if acc = [] then [] else [acc.reverse]
  | c :: rest =>
    if pyIsSpace c then
      if acc = [] then wsWordsAux [] rest else acc.reverse :: wsWordsAux [] rest
    else wsWordsAux (c :: acc) rest

/-- Python s.split() with no argument: whitespace runs, empty parts dropped. -/
def pySplitWs (s : Str) : List Str := wsWordsAux [] s

/-- Python sep.join(parts). -/
def joinWith (sep : Str) : List Str → Str
  | [] => []
  | [x] => x
  | x :: y :: rest => x ++ sep ++ joinWith sep (y :: rest)

/-- Python substring test (needle in haystack). -/
def isSubstr (needle : Str) : Str → Bool
  | [] => needle = []
  | c :: rest => needle.isPrefixOf (c :: rest) || isSubstr needle rest

def pyFindAux (sub : Str) : Str → Nat → Int
  | [], i => if sub = [] then (i : Int) else -1
  | c :: rest, i =>
    if sub.isPrefixOf (c :: rest) then (i : Int) else pyFindAux sub rest (i + 1)

/-- Python haystack.find(sub, start): first index at or after start, else -1. -/
def pyFind (hay sub : Str) (start : Nat) : Int :=
  pyFindAux sub (hay.drop start) start

def pyReplaceFuel (old new : Str) : Nat → Str → Str
  | 0, s => s
  | _ + 1, [] => []
  | fuel + 1, c :: rest =>
    if old.isPrefixOf (c :: rest) then
      new ++ pyReplaceFuel old new fuel ((c :: rest).drop old.length)
    else c :: pyReplaceFuel old new fuel rest

/-- Python s.replace(old, new) for non-empty old (all the uses in the source
have non-empty old). -/
def pyReplace (s old new : Str) : Str :=
  if old = [] then s else pyReplaceFuel old new (s.length + 1) s

def collapseWsAux (inRun : Bool) : Str → Str
  | [] => []
  | c :: rest =>
    if pyIsSpace c then
      if inRun then collapseWsAux true rest else ' ' :: collapseWsAux true rest
    else c :: collapseWsAux false rest

/-- Python re.sub with pattern one-or-more-whitespace and a single space. -/
def collapseWs (s : Str) : Str := collapseWsAux false s

def digitsToNatAux : Str → Nat → Option Nat
  | [], acc => some acc
  | c :: rest, acc =>
    if c.isDigit then digitsToNatAux rest (acc * 10 + (c.toNat - '0'.toNat)) else none

def digitsToNat (s : Str) : Option Nat :=
  if s = [] then none else digitsToNatAux s 0

/-- Python int(s): optional surrounding whitespace, optional sign, decimal
digits.  (Digit-group underscores are not modelled; no input contains them.) -/
def pyInt (s : Str) : Option Int :=
  match pyStrip s with
  | '-' :: rest => (digitsToNat rest).map (fun n => -(n : Int))
  | '+' :: rest => (digitsToNat rest).map (fun n => (n : Int))
  | t => (digitsToNat t).map (fun n => (n : Int))

/-! ### Exact rationals standing for Python floats

Values are kept in lowest terms with positive denominator, so structural
equality coincides with numeric equality of the modelled floats. -/

structure Q where
  n : Int
  d : Int
deriving DecidableEq, Repr

/-- Normalised constructor (lowest terms, positive denominator).  A zero
denominator would correspond to a Python ZeroDivisionError; every division in
the source is guarded, so the junk value is unreachable. -/
def qnorm (n d : Int) : Q :=
  if d = 0 then ⟨0, 0⟩
  else
    let n' := if d < 0 then -n else n
    let d' := if d < 0 then -d else d
    let g : Int := Int.ofNat (n'.natAbs.gcd d'.natAbs)
    ⟨n' / g, d' / g⟩

instance qInstOfNat (n : Nat) : OfNat Q n := ⟨⟨(n : Int), 1⟩⟩

instance : Neg Q := ⟨fun a => ⟨-a.n, a.d⟩⟩

def qadd (a b : Q) : Q := qnorm (a.n * b.d + b.n * a.d) (a.d * b.d)

def qsub (a b : Q) : Q := qnorm (a.n * b.d - b.n * a.d) (a.d * b.d)

def qmul (a b : Q) : Q := qnorm (a.n * b.n) (a.d * b.d)

def qdiv (a b : Q) : Q := qnorm (a.n * b.d) (a.d * b.n)

def qabs (a : Q) : Q := ⟨if a.n < 0 then -a.n else a.n, a.d⟩

instance : LT Q := ⟨fun a b => a.n * b.d < b.n * a.d⟩

instance : LE Q := ⟨fun a b => a.n * b.d ≤ b.n * a.d⟩

instance qDecLt (a b : Q) : Decidable (a < b) :=
  inferInstanceAs (Decidable (a.n * b.d < b.n * a.d))

instance qDecLe (a b : Q) : Decidable (a ≤ b) :=
  inferInstanceAs (Decidable (a.n * b.d ≤ b.n * a.d))

/-- Python min(a, b): returns the first argument unless the second is
smaller. -/
def qmin (a b : Q) : Q := if b < a then b else a

/-- Python max(a, b): returns the first argument unless the second is
larger. -/
def qmax (a b : Q) : Q := if a < b then b else a

def qofInt (i : Int) : Q := ⟨i, 1⟩

def qofNat (m : Nat) : Q := ⟨(m : Int), 1⟩

def qsum (l : List Q) : Q := l.foldl qadd 0

def tenPow (k : Nat) : Nat := 10 ^ k

/-- Python float() restricted to plain decimal literals (optional surrounding
whitespace, optional leading sign, digits with at most one point, at least one
digit).  Every float() call in the source receives such a literal or fails. -/
def pyFloatDec (s : Str) : Option Q :=
  let t := pyStrip s
  let core := fun (u : Str) (sign : Int) =>
    let ip := u.takeWhile Char.isDigit
    let rest := u.drop ip.length
    match rest with
    | [] => if ip = [] then none else (digitsToNat ip).map (fun m => qnorm (sign * (m : Int)) 1)
    | '.' :: fp =>
      if fp.all Char.isDigit then
        if ip = [] ∧ fp = [] then none
        else
          match digitsToNatAux ip 0, digitsToNatAux fp 0 with
          | some a, some b =>
            some (qnorm (sign * ((a * tenPow fp.length + b : Nat) : Int)) ((tenPow fp.length : Nat) : Int))
          | _, _ => none
      else none
    | _ => none
  match t with
  | '-' :: u => core u (-1)
  | '+' :: u => core u 1
  | u => core u 1

def natDigitsAux : Nat → Nat → Str
  | 0, _ => []
  | f + 1, m =>
    if m = 0 then [] else natDigitsAux f (m / 10) ++ [Char.ofNat ('0'.toNat + m % 10)]

/-- Decimal digits of a natural number (no sign). -/
def natDigits (m : Nat) : Str := if m = 0 then ['0'] else natDigitsAux (m + 1) m

def stripTrailingZeros (s : Str) : Str :=
  (dropLeading (fun c => c = '0') s.reverse).reverse

def findDenExp (d : Int) : Nat → Option Nat
  | 0 => if (tenPow 0 : Int) % d = 0 then some 0 else none
  | k + 1 =>
    match findDenExp d k with
    | some j => some j
    | none => if ((tenPow (k + 1) : Nat) : Int) % d = 0 then some (k + 1) else none

/-- Python str(float) for the values the program builds: a plain decimal with
at least one fractional digit and no trailing zeros (floats of magnitude at
least 1e16, printed with an exponent by Python, never arise here). -/
def pyStrOfQ (q : Q) : Str :=
  let sign : Str := if q.n < 0 then ['-'] else []
  let a : Nat := q.n.natAbs
  match findDenExp q.d 40 with
  | some k =>
    let scaled : Nat := a * (tenPow k / q.d.natAbs)
    let ip := scaled / tenPow k
    let fp := scaled % tenPow k
    let fpDigits :=
      let raw := natDigits fp
      List.replicate (k - raw.length) '0' ++ raw
    let frac := stripTrailingZeros fpDigits
    sign ++ natDigits ip ++ ['.'] ++ (if frac = [] then ['0'] else frac)
  | none => sign ++ natDigits a ++ ['/'] ++ natDigits q.d.natAbs

/-! ### Regex engine (Python re semantics for the patterns of the source)

Patterns are explicit syntax trees executed by a continuation-passing
backtracking matcher: alternatives are tried left to right, quantifiers are
greedy, and the first complete match wins — exactly the preference order of
the CPython re engine on these lookaround-free patterns.  The two lookarounds
appearing in the source are handled at the scanning level (see
reFindAllNoPrevDigit): the negative lookbehind for a digit filters candidate
start positions, and the trailing negative lookahead for a digit after a
greedy one-or-more-digits group is vacuous, since that group never gives
digits back (nothing follows it in the pattern). -/

inductive RE where
  | lit (s : Str)
  | litci (s : Str)
  | pred (p : Char → Bool)
  | cat (a b : RE)
  | alt (a b : RE)
  | opt (a : RE)
  | star (a : RE)
  | rep (a : RE) (lo hi : Nat)

def stripPre : Str → Str → Option Str
  | [], s => some s
  | _ :: _, [] => none
  | w :: ws, c :: cs => if w = c then stripPre ws cs else none

def stripPreCI : Str → Str → Option Str
  | [], s => some s
  | _ :: _, [] => none
  | w :: ws, c :: cs => if w.toLower = c.toLower then stripPreCI ws cs else none

def reM {α : Type} : Nat → RE → Str → (Str → Option α) → Option α
  | 0, _, _, _ => none
  | _ + 1, .lit w, s, k =>
    (match stripPre w s with | some r => k r | none => none)
  | _ + 1, .litci w, s, k =>
    (match stripPreCI w s with | some r => k r | none => none)
  | _ + 1, .pred p, s, k =>
    (match s with | [] => none | c :: r => if p c then k r else none)
  | fuel + 1, .cat a b, s, k => reM fuel a s (fun s1 => reM fuel b s1 k)
  | fuel + 1, .alt a b, s, k =>
    (match reM fuel a s k with | some v => some v | none => reM fuel b s k)
  | fuel + 1, .opt a, s, k =>
    (match reM fuel a s k with | some v => some v | none => k s)
  | fuel + 1, .star a, s, k =>
    (match reM fuel a s
        (fun s1 => if s1.length < s.length then reM fuel (.star a) s1 k else none) with
     | some v => some v
     | none => k s)
  | fuel + 1, .rep a lo hi, s, k =>
    match lo, hi with
    | 0, 0 => k s
    | 0, h + 1 =>
      (match reM fuel a s (fun s1 => reM fuel (.rep a 0 h) s1 k) with
       | some v => some v
       | none => k s)
    | _ + 1, 0 => none
    | l + 1, h + 1 => reM fuel a s (fun s1 => reM fuel (.rep a l h) s1 k)

/-- Fuel amply exceeding the backtracking depth of the embedded patterns. -/
def reFuel (s : Str) : Nat := (s.length + 2) * 200

/-- Python re.search for a pattern of shape (group)(tail), returning the text
of group 1 of the leftmost match. -/
def reSearchGT (g t : RE) : Str → Option Str
  | [] =>
    (match reM (reFuel []) g [] (fun s1 => reM (reFuel []) t s1 (fun _ => some s1)) with
     | some s1 => some (([] : Str).take (0 - s1.length))
     | none => none)
  | c :: rest =>
    (match reM (reFuel (c :: rest)) g (c :: rest)
        (fun s1 => reM (reFuel (c :: rest)) t s1 (fun _ => some s1)) with
     | some s1 => some ((c :: rest).take ((c :: rest).length - s1.length))
     | none => reSearchGT g t rest)

/-- Python re.findall for a pattern with no groups: list of the non-overlapping
leftmost matches.  (The embedded patterns never match the empty string.) -/
def reFindAll (r : RE) : Nat → Str → List Str
  | 0, _ => []
  | fuel + 1, s =>
    match reM (reFuel s) r s (fun s2 => some s2) with
    | some s2 =>
      let m := s.take (s.length - s2.length)
      if m = [] then
        (match s with | [] => [] | _ :: rest => reFindAll r fuel rest)
      else m :: reFindAll r fuel s2
    | none => (match s with | [] => [] | _ :: rest => reFindAll r fuel rest)

/-- Python re.findall for a pattern guarded by a negative lookbehind for a
digit: a candidate start position is skipped when the previous character is a
digit. -/
def reFindAllNoPrevDigit (r : RE) : Nat → Option Char → Str → List Str
  | 0, _, _ => []
  | fuel + 1, prev, s =>
    let skip : Unit → List Str := fun _ =>
      match s with
      | [] => []
      | c :: rest => reFindAllNoPrevDigit r fuel (some c) rest
    if (match prev with | some p => p.isDigit | none => false) then skip ()
    else
      match reM (reFuel s) r s (fun s2 => some s2) with
      | some s2 =>
        let m := s.take (s.length - s2.length)
        if m = [] then skip ()
        else m :: reFindAllNoPrevDigit r fuel m.getLast? s2
      | none => skip ()

/-- Python re.findall for a pattern of shape (head)(group) whose single group
is its final piece: list of the group texts of the non-overlapping matches. -/
def reFindAllGT (h g : RE) : Nat → Str → List Str
  | 0, _ => []
  | fuel + 1, s =>
    match reM (reFuel s) h s
        (fun s1 => reM (reFuel s) g s1 (fun s2 => some (s1, s2))) with
    | some (s1, s2) =>
      (s1.take (s1.length - s2.length)) :: reFindAllGT h g fuel s2
    | none => (match s with | [] => [] | _ :: rest => reFindAllGT h g fuel rest)

/-! Character classes and pattern constants. -/

def dP : RE := .pred Char.isDigit

def spP : RE := .pred pyIsSpace

def rePlus (r : RE) : RE := .cat r (.star r)

/-- Source pattern (pdf_extractor.py line 736 and 791):
one-or-more of digit-or-comma, optional point, digits, whitespace, SAR. -/
def reLTRAmount : RE :=
  .cat (rePlus (.pred (fun c => c.isDigit || c = ',')))
    (.cat (.opt (.lit ['.'])) (.cat (.star dP) (.cat (.star spP) (.lit (S "SAR")))))

/-- Source pattern (line 671) body, without its lookarounds (handled by the
scanner): optional minus, 1-3 digits, comma-separated 3-digit groups, point,
one or more digits. -/
def reAltAmount : RE :=
  .cat (.opt (.lit ['-']))
    (.cat (.rep dP 1 3)
      (.cat (.star (.cat (.lit [',']) (.rep dP 3 3)))
        (.cat (.lit ['.']) (rePlus dP))))

/-- Source pattern (line 150), group 1: 1-3 digits, comma groups, optional
point and exactly two decimals. -/
def reRTLAmountG : RE :=
  .cat (.rep dP 1 3)
    (.cat (.star (.cat (.lit [',']) (.rep dP 3 3)))
      (.opt (.cat (.lit ['.']) (.rep dP 2 2))))

/-- Tail following group 1 in the line-150 pattern: whitespace then SAR. -/
def reRTLAmountTail : RE := .cat (.star spP) (.lit (S "SAR"))

/-- Source pattern (line 167), group 1: four digits, slash, two, slash, two. -/
def reRTLDateG : RE :=
  .cat (.rep dP 4 4)
    (.cat (.lit ['/']) (.cat (.rep dP 2 2) (.cat (.lit ['/']) (.rep dP 2 2))))

/-- Head of the field-extraction pattern (lines 186-188, 219-222): the escaped
label (case-insensitive), then whitespace, then colons or whitespace. -/
def reFieldHead (label : Str) : RE :=
  .cat (.litci label)
    (.cat (.star spP) (.star (.pred (fun c => c = ':' || pyIsSpace c))))

/-- Group 1 of the field-extraction pattern: one or more characters that are
neither newline nor carriage return. -/
def reFieldGroup : RE :=
  rePlus (.pred (fun c => !(c = '\n' || c = '\x0d')))

/-- Python re.search for a pattern of shape (head)(group) whose single group
is its final piece: group 1 of the leftmost match. -/
def reSearchHG (h g : RE) : Str → Option Str
  | [] =>
    (match reM (reFuel []) h []
        (fun s1 => reM (reFuel []) g s1 (fun s2 => some (s1, s2))) with
     | some (s1, s2) => some (s1.take (s1.length - s2.length))
     | none => none)
  | c :: rest =>
    (match reM (reFuel (c :: rest)) h (c :: rest)
        (fun s1 => reM (reFuel (c :: rest)) g s1 (fun s2 => some (s1, s2))) with
     | some (s1, s2) => some (s1.take (s1.length - s2.length))
     | none => reSearchHG h g rest)

/-! ### Configuration constants (load_default_config and the pattern tables) -/

inductive Lang where
  | arabic
  | english
deriving DecidableEq, Repr

inductive FieldName where
  | customer_name
  | city
  | account_number
  | iban_number
  | opening_balance
  | closing_balance
  | financial_period
  | date
  | debit
  | credit
  | balance
deriving DecidableEq, Repr

def english_patterns : FieldName → List Str
  | .customer_name => [S "Customer Name", S "Account Holder"]
  | .city => [S "City"]
  | .account_number => [S "Account Number"]
  | .iban_number => [S "IBAN Number", S "IBAN"]
  | .opening_balance => [S "Opening Balance"]
  | .closing_balance => [S "Closing Balance"]
  | .financial_period => [S "On The Period", S "Period"]
  | .date => [S "Date"]
  | .debit => [S "Debit"]
  | .credit => [S "Credit"]
  | .balance => [S "Balance"]

def arabic_patterns : FieldName → List Str
  | .customer_name => [S "اسم العميل",
                       S "اسم المعميل"]
  | .city => [S "المدينة", S "مدينة"]
  | .account_number => [S "رقم الحساب",
                        S "رقم حساب"]
  | .iban_number => [S "رقم الآيبان",
                     S "رقم آيبان", S "IBAN"]
  | .opening_balance =>
      [S "رصيد الحساب الافتتاحي",
       S "الرصيد الافتتاحي"]
  | .closing_balance =>
      [S "رصيد الإقفال",
       S "الرصيد الإقفالي"]
  | .financial_period =>
      [S "خلال الفترة",
       S "الفترة المالية"]
  | .date => [S "التاريخ", S "تاريخ"]
  | .debit => [S "مدين", S "خصم"]
  | .credit => [S "دائن", S "ايداع"]
  | .balance => [S "الرصيد", S "رصيد"]

structure DatePattern where
  separators : List Char
  year_position : Nat
  month_position : Nat
  day_position : Nat
deriving DecidableEq, Repr

/-- config date_patterns: YYYY/MM/DD first, then DD/MM/YYYY. -/
def date_patterns : List DatePattern := [⟨['/', '-'], 0, 1, 2⟩, ⟨['/', '-'], 2, 1, 0⟩]

/-- config amount_patterns.currency_symbols. -/
def currency_symbols : List Str :=
  [S "SAR", S "SR", S "ريال", S "ر.س"]

/-- config amount_patterns.clean_chars. -/
def clean_chars : List Char :=
  ['0', '1', '2', '3', '4', '5', '6', '7', '8', '9', '.', ',', '-']

/-- config transaction_table.search_lines_after. -/
def search_lines_after : Nat := 10

/-- The Arabic presentation-form marker tested by
extract_header_from_second_page. -/
def rtl_header_marker : Str :=
  S "ﺗﺎﺭﻳﺦ ﺍﻟﻌﻤﻠﻴﺔ"

/-! ### Shared primitives: amounts, dates, language -/

/-- extract_single_amount_rtl: search the line-150 pattern, strip commas from
group 1, parse as float (the try/except around float never fires because the
group is a well-formed decimal). -/
def extract_single_amount_rtl (line : Str) : Option Q :=
  match reSearchGT reRTLAmountG reRTLAmountTail line with
  | some g => pyFloatDec (pyReplace g [','] [])
  | none => none

/-- extract_date_from_line_rtl: first occurrence of the literal
four-digits/two/two shape. -/
def extract_date_from_line_rtl (line : Str) : Option Str :=
  reSearchGT reRTLDateG (.lit []) line

/-- clean_amount: keep only config clean_chars, drop commas, parse as float
(None on empty or malformed remainder). -/
def clean_amount (amount_str : Str) : Option Q :=
  if amount_str = [] then none
  else
    let cleaned := amount_str.filter (fun c => clean_chars.contains c)
    if cleaned = [] then none
    else
      let cleaned2 := if cleaned.contains ',' then pyReplace cleaned [','] [] else cleaned
      pyFloatDec cleaned2

def firstSome {α : Type} : List (Option α) → Option α
  | [] => none
  | some a :: _ => some a
  | none :: rest => firstSome rest

abbrev Date3 := Int × Int × Int

/-- One (pattern, separator) attempt of extract_date_from_text; any
ValueError / IndexError inside the try means "continue", i.e. none. -/
def try_pattern_sep (line : Str) (pc : DatePattern) (sep : Char) : Option Date3 :=
  if sep ∈ line then
    let parts := splitChar sep line
    if 3 ≤ parts.length then
      match parts.get? pc.year_position, parts.get? pc.month_position,
            parts.get? pc.day_position with
      | some ys, some ms, some ds =>
        (match pyInt ys, pyInt ms, pyInt ds with
         | some y, some m, some d =>
           if 1900 ≤ y ∧ y ≤ 2100 ∧ 1 ≤ m ∧ m ≤ 12 ∧ 1 ≤ d ∧ d ≤ 31 then
             some (y, m, d)
           else none
         | _, _, _ => none)
      | _, _, _ => none
    else none
  else none

def date_from_line (line : Str) : Option Date3 :=
  firstSome (date_patterns.map (fun pc =>
    firstSome (pc.separators.map (fun sep => try_pattern_sep line pc sep))))

def edft_go : List Str → Option Date3
  | [] => none
  | l :: ls =>
    let line := pyStrip l
    if line = [] then edft_go ls
    else
      match date_from_line line with
      | some r => some r
      | none => edft_go ls

/-- extract_date_from_text: first line, first configured pattern, first
separator that yields a fully numeric in-range (year, month, day). -/
def extract_date_from_text (text : Str) : Option Date3 :=
  edft_go (splitChar '\n' text)

inductive DateVal where
  | tup (y m d : Int)
  | str (s : Str)
deriving DecidableEq, Repr

def isLeapYear (y : Int) : Bool := y % 4 = 0 && (y % 100 ≠ 0 || y % 400 = 0)

def daysInMonth (y m : Int) : Int :=
  if m = 2 then (if isLeapYear y then 29 else 28)
  else if m = 4 ∨ m = 6 ∨ m = 9 ∨ m = 11 then 30
  else 31

/-- datetime(year, month, day): the constructor raises (caught as None by the
callers) outside these ranges. -/
def mkDatetime (y m d : Int) : Option Date3 :=
  if 1 ≤ y ∧ y ≤ 9999 ∧ 1 ≤ m ∧ m ≤ 12 ∧ 1 ≤ d ∧ d ≤ daysInMonth y m then
    some (y, m, d)
  else none

/-- date_to_datetime: tuples go straight to the datetime constructor; strings
are split on slash (YYYY/MM/DD when the first part has four characters, else
DD/MM/YYYY) or on dash; every failure inside the try returns None. -/
def date_to_datetime : DateVal → Option Date3
  | .tup y m d => mkDatetime y m d
  | .str s =>
    if '/' ∈ s then
      let parts := splitChar '/' s
      if parts.length = 3 then
        match pyInt (parts.getD 0 []), pyInt (parts.getD 1 []), pyInt (parts.getD 2 []) with
        | some a, some b, some c =>
          if (parts.getD 0 []).length = 4 then mkDatetime a b c else mkDatetime c b a
        | _, _, _ => none
      else none
    else if '-' ∈ s then
      let parts := splitChar '-' s
      if parts.length = 3 then
        match pyInt (parts.getD 0 []), pyInt (parts.getD 1 []), pyInt (parts.getD 2 []) with
        | some a, some b, some c => mkDatetime a b c
        | _, _, _ => none
      else none
    else none

def dateLt (a b : Date3) : Bool :=
  a.1 < b.1 || (a.1 = b.1 && (a.2.1 < b.2.1 || (a.2.1 = b.2.1 && a.2.2 < b.2.2)))

def dateLe (a b : Date3) : Bool := !(dateLt b a)

def padDigits (width : Nat) (m : Nat) : Str :=
  let raw := natDigits m
  List.replicate (width - raw.length) '0' ++ raw

/-- strftime with the year-dash-month format used as the monthly key. -/
def ymKey (dt : Date3) : Str :=
  padDigits 4 dt.1.natAbs ++ ['-'] ++ padDigits 2 dt.2.1.natAbs

/-- detect_language: count Arabic-block characters against ASCII letters. -/
def detect_language (text : Str) : Lang :=
  let arabic_chars := (text.filter (fun c => 0x0600 ≤ c.toNat && c.toNat ≤ 0x06FF)).length
  let english_chars :=
    (text.filter (fun c => ('a' ≤ c && c ≤ 'z') || ('A' ≤ c && c ≤ 'Z'))).length
  if english_chars < arabic_chars then .arabic else .english

/-- detect_amounts_in_text: a currency marker anywhere, or a whitespace word
that is all digits (after dropping comma, point, minus) with length at least
three. -/
def detect_amounts_in_text (text : Str) (syms : List Str) : Bool :=
  syms.any (fun cur => isSubstr cur text) ||
  (pySplitWs text).any (fun w =>
    let cw := pyReplace (pyReplace (pyReplace w [','] []) ['.'] []) ['-'] []
    !cw.isEmpty && cw.all Char.isDigit && 3 ≤ cw.length)

/-! ### Amount-list extraction (standard and alternate format) -/

def optTraverse {α β : Type} (f : α → Option β) : List α → Option (List β)
  | [] => some []
  | a :: l =>
    match f a, optTraverse f l with
    | some b, some bs => some (b :: bs)
    | _, _ => none

/-- The findall of lines 736 and 791 followed by the comprehension dropping a
space-SAR suffix and commas; a float failure there would propagate to the
enclosing try/except, hence the Option result. -/
def sar_tagged_amounts (full_text : Str) : Option (List Q) :=
  optTraverse (fun cell => pyFloatDec (pyReplace (pyReplace cell (S " SAR") []) [','] []))
    (reFindAll reLTRAmount (full_text.length + 1) full_text)

/-- extract_amounts lines 671: every decimal-bearing token (negative
lookbehind and vacuous lookahead handled by the scanner). -/
def altAllAmounts (full_text : Str) : List Str :=
  reFindAllNoPrevDigit reAltAmount (full_text.length + 1) none full_text

/-- extract_amounts lines 675-682: the first adjacent pair of matched tokens
whose gap, measured with str.find from the start of the text, is at most 50
characters. -/
def altConsecPair (full_text : Str) : List Str → Option (Str × Str)
  | a :: b :: rest =>
    let current_pos := pyFind full_text a 0
    let next_pos := pyFind full_text b (current_pos + (a.length : Int)).toNat
    if next_pos - current_pos - (a.length : Int) ≤ 50 then some (a, b)
    else altConsecPair full_text (b :: rest)
  | _ => none

/-- extract_amounts lines 674-686: the close pair if one exists, else the
first two matches. -/
def altPairStrings (full_text : Str) : List Str :=
  match altConsecPair full_text (altAllAmounts full_text) with
  | some (a, b) => [a, b]
  | none => (altAllAmounts full_text).take 2

/-- Comma-stripped float conversion of the selected pair (line 693). -/
def altPairFloats (full_text : Str) : Option (List Q) :=
  optTraverse (fun c => pyFloatDec (pyReplace c [','] [])) (altPairStrings full_text)

/-- extract_amounts: pair selection, then the sign-based reordering pre-step
(lines 699-709). -/
def extract_amounts (full_text : Str) : Option (List Q) :=
  let rough := altPairStrings full_text
  if rough.length < 2 then some []
  else
    match altPairFloats full_text with
    | none => none
    | some amounts =>
      let first := amounts.getD 0 0
      let second := amounts.getD 1 0
      if first < 0 ∧ 0 < second then some [first, 0, second]
      else if 0 < first ∧ 0 < second then some [0, qmin first second, qmax first second]
      else some amounts

/-- parse_amount_sequence (lines 887-902).  The two-amount comparison in the
source selects between two identical tuples; it is kept as written. -/
def parse_amount_sequence (amounts : List Q) : Q × Q × Q :=
  match amounts with
  | [] => (0, 0, 0)
  | [a] => (0, 0, a)
  | [a, b] => if a < b then (a, 0, b) else (a, 0, b)
  | a :: b :: c :: _ => (a, b, c)

/-! ### Description extraction -/

/-- remove_dates_from_text: drop whitespace words that, after mapping slash to
dash, split into exactly three all-digit parts. -/
def remove_dates_from_text (text : Str) : Str :=
  joinWith [' '] ((pySplitWs text).filter (fun word =>
    if word.contains '/' || word.contains '-' then
      let parts := splitChar '-' (pyReplace word ['/'] ['-'])
      !(parts.length = 3 && parts.all (fun p => !p.isEmpty && p.all Char.isDigit))
    else true))

/-- One line of extract_transaction_description: delete the str() image of
every amount, then date-shaped words, then currency markers, then normalise
whitespace. -/
def cleanDescLine (amounts : List Q) (line : Str) : Str :=
  let afterAmounts := amounts.foldl (fun acc a => pyReplace acc (pyStrOfQ a) []) line
  let afterDates := remove_dates_from_text afterAmounts
  let afterCur := currency_symbols.foldl (fun acc cur => pyReplace acc cur []) afterDates
  joinWith [' '] (pySplitWs afterCur)

/-- extract_transaction_description: first three non-empty cleaned lines,
joined, truncated to 100 characters. -/
def extract_transaction_description (search_lines : List Str) (amounts : List Q) : Str :=
  let parts := (search_lines.map (cleanDescLine amounts)).filterMap
    (fun cl => if pyStrip cl = [] then none else some (pyStrip cl))
  (joinWith [' '] (parts.take 3)).take 100

def rtlDescGo (date_str : Str) : Nat → List Str → List Str
  | _, [] => []
  | skipped, line :: rest =>
    if isSubstr (S "SAR") line && skipped < 3 then rtlDescGo date_str (skipped + 1) rest
    else if 3 ≤ skipped then
      if isSubstr date_str line then [line]
      else line :: rtlDescGo date_str skipped rest
    else rtlDescGo date_str skipped rest

/-- extract_rtl_transaction_description: skip the first three SAR lines, then
collect raw lines up to and including the one containing the matched date
string; join the non-blank ones with single spaces. -/
def extract_rtl_transaction_description (search_lines : List Str) (_amounts : List Q)
    (date_str : Str) : Str :=
  joinWith [' '] ((rtlDescGo date_str 0 search_lines).filter (fun l => !(pyStrip l).isEmpty))

/-! ### The two candidate parsers -/

structure Transaction where
  date : DateVal
  description : Str
  debit : Q
  credit : Q
  balance : Q
deriving DecidableEq, Repr

/-- lines[i : i + search_lines_after], the shared ten-line context window. -/
def ltr_window (lines : List Str) (i : Nat) : List Str :=
  (lines.drop i).take search_lines_after

/-- Amount list of parse_transaction_line: extract_amounts in the alternate
format, the SAR-tagged findall otherwise. -/
def ltr_amounts (different_amount_format : Bool) (full_text : Str) : Option (List Q) :=
  if different_amount_format then extract_amounts full_text else sar_tagged_amounts full_text

/-- parse_transaction_line.  An index beyond the line list raises an
IndexError that the enclosing except turns into None; the default empty
string used here reaches the same None through the failing date match. -/
def parse_transaction_line (lines : List Str) (line_index : Nat) (_language : Lang)
    (different_amount_format : Bool) : Option Transaction :=
  let current_line := lines.getD line_index []
  match extract_date_from_text current_line with
  | none => none
  | some dt =>
    let search_lines := ltr_window lines line_index
    let full_text := joinWith [' '] search_lines
    match ltr_amounts different_amount_format full_text with
    | none => none
    | some amounts =>
      if amounts = [] then none
      else
        let dcb := parse_amount_sequence amounts
        if dcb.1 = 0 ∧ dcb.2.1 = 0 then none
        else
          let description := extract_transaction_description search_lines amounts
          if pyStrip description = [] then none
          else some ⟨.tup dt.1 dt.2.1 dt.2.2, description, dcb.1, dcb.2.1, dcb.2.2⟩

/-- parse_transaction_line_rtl: the date is re-extracted from the joined
ten-line window with the fixed recognizer; the three components of
parse_amount_sequence are read as (balance, credit, debit). -/
def parse_transaction_line_rtl (lines : List Str) (line_index : Nat) (_language : Lang) :
    Option Transaction :=
  let search_lines := ltr_window lines line_index
  let full_text := joinWith [' '] search_lines
  match extract_date_from_line_rtl full_text with
  | none => none
  | some date_str =>
    match sar_tagged_amounts full_text with
    | none => none
    | some amounts =>
      if amounts = [] then none
      else
        let bcd := parse_amount_sequence amounts
        if bcd.2.2 = 0 ∧ bcd.2.1 = 0 then none
        else
          let description := extract_rtl_transaction_description search_lines amounts date_str
          if pyStrip description = [] then none
          else some ⟨.str date_str, description, bcd.2.2, bcd.2.1, bcd.1⟩

/-! ### The two segmentation loops -/

/-- Python float literal 0.01 of the duplicate test, modelled exactly. -/
def centQ : Q := ⟨1, 100⟩

/-- The duplicate check and append shared verbatim by both loops
(lines 536-545 and lines 626-634): the candidate is dropped when it repeats
the date and description of the last accepted transaction with a balance gap
under 0.01; the Bool reports whether the candidate was appended (and hence
whether last_valid_date is updated). -/
def accept_candidate (transactions : List Transaction) (t : Transaction) :
    List Transaction × Bool :=
  match transactions.getLast? with
  | some last =>
    if last.date = t.date ∧ last.description = t.description ∧
        qabs (qsub last.balance t.balance) < centQ then
      (transactions, false)
    else (transactions ++ [t], true)
  | none => (transactions ++ [t], true)

/-- One line of the extract_transactions scan (lines 505-545). -/
def ltrStep (lines : List Str) (language : Lang) (fmt : Bool) (i : Nat)
    (st : List Transaction × Option Date3) : List Transaction × Option Date3 :=
  let line := pyStrip (lines.getD i [])
  if line = [] then st
  else
    match extract_date_from_text line with
    | none => st
    | some dm =>
      match date_to_datetime (.tup dm.1 dm.2.1 dm.2.2) with
      | none => st
      | some cur =>
        if (match st.2 with | some lv => dateLt cur lv | none => false) then st
        else
          let full_text := joinWith [' '] (ltr_window lines i)
          if detect_amounts_in_text full_text currency_symbols then
            match parse_transaction_line lines i language fmt with
            | some t =>
              let pr := accept_candidate st.1 t
              if pr.2 then (pr.1, some cur) else st
            | none => st
          else st

def ltrScan (lines : List Str) (language : Lang) (fmt : Bool) :
    Nat → Nat → List Transaction × Option Date3 → List Transaction × Option Date3
  | 0, _, st => st
  | n + 1, i, st => ltrScan lines language fmt n (i + 1) (ltrStep lines language fmt i st)

/-- extract_transactions: scan every line of every page, threading the
accepted list and last_valid_date across pages. -/
def extract_transactions (text_pages : List Str) (language : Lang) (fmt : Bool) :
    List Transaction :=
  (text_pages.foldl (fun st page =>
    let lines := splitChar '\n' page
    ltrScan lines language fmt lines.length 0 st) ([], none)).1

/-- The collection loop of extract_rtl_transactions lines 573-583: after the
anchor amount, at most the next two lines are examined (the loop bound is
i + 3), each stripped, skipped when blank, its amount appended when present.
The while condition is re-checked per iteration, so the two steps are
unrolled with the full guard. -/
def rtlCollect (lines : List Str) (i : Nat) (first : Q) : List Q :=
  let step := fun (amounts : List Q) (j : Nat) =>
    if j < lines.length ∧ j < i + 3 ∧ amounts.length < 3 then
      let next_line := pyStrip (lines.getD j [])
      if next_line ≠ [] then
        match extract_single_amount_rtl next_line with
        | some a => amounts ++ [a]
        | none => amounts
      else amounts
    else amounts
  step (step [first] (i + 1)) (i + 2)

def rtlScanRange (lines : List Str) : Nat → Nat → Option Str → Option Str
  | 0, _, dm => dm
  | n + 1, k, dm =>
    let sl := pyStrip (lines.getD k [])
    let dm2 :=
      if sl ≠ [] then
        (match dm with
         | none => extract_date_from_line_rtl sl
         | some d => some d)
      else dm
    rtlScanRange lines n (k + 1) dm2

/-- Lines 590-605 of extract_rtl_transactions: the first date token found in
the fifty-line range starting at the anchor.  (The description_lines list
built alongside it in the source is never read afterwards and is omitted.) -/
def rtl_find_date (lines : List Str) (i : Nat) : Option Str :=
  rtlScanRange lines (min (i + 50) lines.length - i) i none

/-- One line of the extract_rtl_transactions scan (lines 563-634). -/
def rtlStep (lines : List Str) (language : Lang) (i : Nat)
    (st : List Transaction × Option Date3) : List Transaction × Option Date3 :=
  let line := pyStrip (lines.getD i [])
  if line = [] then st
  else
    match extract_single_amount_rtl line with
    | none => st
    | some first =>
      let amounts := rtlCollect lines i first
      if amounts.length = 3 then
        match rtl_find_date lines i with
        | none => st
        | some date_match =>
          match date_to_datetime (.str date_match) with
          | none => st
          | some cur =>
            let full_text := joinWith [' '] (ltr_window lines i)
            if detect_amounts_in_text full_text currency_symbols then
              match parse_transaction_line_rtl lines i language with
              | some t =>
                let pr := accept_candidate st.1 t
                if pr.2 then (pr.1, some cur) else st
              | none => st
            else st
      else st

def rtlScan (lines : List Str) (language : Lang) :
    Nat → Nat → List Transaction × Option Date3 → List Transaction × Option Date3
  | 0, _, st => st
  | n + 1, i, st => rtlScan lines language n (i + 1) (rtlStep lines language i st)

/-- extract_rtl_transactions over all pages (last_valid_date is threaded as in
the source, though the RTL loop never reads it back). -/
def extract_rtl_transactions (text_pages : List Str) (language : Lang) : List Transaction :=
  (text_pages.foldl (fun st page =>
    let lines := splitChar '\n' page
    rtlScan lines language lines.length 0 st) ([], none)).1

/-! ### Monthly aggregation -/

structure MonthlyStats where
  count : Nat
  total_debit : Q
  total_credit : Q
  opening_balance : Option Q
  closing_balance : Option Q
  minimum_balance : Option Q
  transactions : List Transaction
  international_inward_count : Nat
  international_outward_count : Nat
  international_inward_total : Q
  international_outward_total : Q
  net_change : Q
  fluctuation : Q
deriving DecidableEq, Repr

/-- The defaultdict template of analyze_monthly_transactions (net_change and
fluctuation are keys the first loop never writes; the second loop always sets
them, so their placeholder value 0 is never observed). -/
def initStats : MonthlyStats := ⟨0, 0, 0, none, none, none, [], 0, 0, 0, 0, 0, 0⟩

/-- defaultdict access: update the entry in place, or append a fresh one
(insertion order preserved, as for a Python dict). -/
def touchMonth : List (Str × MonthlyStats) → Str → (MonthlyStats → MonthlyStats) →
    List (Str × MonthlyStats)
  | [], ym, f => [(ym, f initStats)]
  | (k, v) :: rest, ym, f =>
    if k = ym then (k, f v) :: rest else (k, v) :: touchMonth rest ym f

/-- The per-transaction update of the first loop (lines 1007-1024), including
the IPS marker counting. -/
def monthlyAdd (t : Transaction) (s : MonthlyStats) : MonthlyStats :=
  let s1 := { s with
    count := s.count + 1
    total_debit := qadd s.total_debit t.debit
    total_credit := qadd s.total_credit t.credit
    transactions := s.transactions ++ [t] }
  if isSubstr (S "IPS") t.description then
    let s2 :=
      if 0 < t.credit then
        { s1 with
          international_inward_count := s1.international_inward_count + 1
          international_inward_total := qadd s1.international_inward_total t.credit }
      else s1
    if 0 < t.debit then
      { s2 with
        international_outward_count := s2.international_outward_count + 1
        international_outward_total := qadd s2.international_outward_total t.debit }
    else s2
  else s1

def monthlyPhase1 (transactions : List Transaction) : List (Str × MonthlyStats) :=
  transactions.foldl (fun acc t =>
    match date_to_datetime t.date with
    | none => acc
    | some dtobj => touchMonth acc (ymKey dtobj) (monthlyAdd t)) []

/-- The sort key of line 1035 (datetime of the date field); a None key never
occurs for grouped transactions, which were admitted only with a valid date,
and is ordered first for totality. -/
def txDateKeyLe (a b : Transaction) : Bool :=
  match date_to_datetime a.date, date_to_datetime b.date with
  | none, _ => true
  | some _, none => false
  | some x, some y => dateLe x y

def insertTx (x : Transaction) : List Transaction → List Transaction
  | [] => [x]
  | y :: rest => if txDateKeyLe y x then y :: insertTx x rest else x :: y :: rest

/-- Stable ascending sort by date, as list.sort with the date key. -/
def sortTx (l : List Transaction) : List Transaction :=
  l.foldl (fun acc x => insertTx x acc) []

/-- The second loop of analyze_monthly_transactions (lines 1031-1060): sort
the month, reconstruct the opening balance, take closing and minimum, and
compute net change and the guarded fluctuation percentage. -/
def monthlyFinalize (s : MonthlyStats) : MonthlyStats :=
  match sortTx s.transactions with
  | [] => { s with net_change := 0, fluctuation := 0 }
  | first :: restSorted =>
    let sorted := first :: restSorted
    let opening := qadd (qsub first.balance first.credit) first.debit
    let lastT := sorted.getLast?.getD first
    let balances := sorted.map Transaction.balance
    let minimum := (balances.drop 1).foldl qmin (balances.getD 0 0)
    let inflow := s.total_credit
    let outflow := qabs s.total_debit
    let net := qsub inflow outflow
    let fluct := if ¬(opening = 0) then qmul (qdiv net opening) 100 else 0
    { s with
      transactions := sorted
      opening_balance := some opening
      closing_balance := some lastT.balance
      minimum_balance := some minimum
      net_change := net
      fluctuation := fluct }

def analyze_monthly_transactions (transactions : List Transaction) :
    List (Str × MonthlyStats) :=
  (monthlyPhase1 transactions).map (fun p => (p.1, monthlyFinalize p.2))

/-! ### Analytics -/

/-- Values of the analytics record.  The cash-flow stability involves the one
square root of the program (variance ** 0.5, divided by the mean); it is kept
symbolic since the other analytics stay exact rationals. -/
inductive PyNum where
  | rat (q : Q)
  | sqrtDiv (variance mean : Q)
deriving DecidableEq, Repr

/-- calculate_analytics (lines 1188-1236).  The source filters out None
values of fluctuation, net_change, total_credit and total_debit before
aggregating; the second loop of the aggregator always writes those keys, so
in this typed model the filters keep every month. -/
def calculate_analytics (monthly_analysis : List (Str × MonthlyStats)) :
    List (Str × PyNum) :=
  if monthly_analysis = [] then
    [(S "average_fluctuation", .rat 0),
     (S "net_cash_flow_stability", .rat 0),
     (S "total_foreign_transactions", .rat 0),
     (S "total_foreign_amount", .rat 0),
     (S "overdraft_frequency", .rat 0),
     (S "overdraft_total_days", .rat 0)]
  else
    let months := monthly_analysis.map Prod.snd
    let fluctuation_values := months.map MonthlyStats.fluctuation
    let avg_fluctuation :=
      if fluctuation_values = [] then (0 : Q)
      else qdiv (qsum fluctuation_values) (qofNat fluctuation_values.length)
    let net_changes := months.map MonthlyStats.net_change
    let stability : PyNum :=
      if net_changes ≠ [] ∧ 1 < net_changes.length then
        let mean := qdiv (qsum net_changes) (qofNat net_changes.length)
        let variance := qdiv
          (qsum (net_changes.map (fun x => qmul (qsub x mean) (qsub x mean))))
          (qofNat (net_changes.length - 1))
        if ¬(mean = 0) then .sqrtDiv variance mean else .rat 0
      else .rat 0
    let total_foreign_transactions :=
      (months.map MonthlyStats.international_inward_count).foldl (· + ·) 0
    let total_foreign_amount := qsum (months.map MonthlyStats.international_inward_total)
    let inflows := months.map MonthlyStats.total_credit
    let outflows := months.map (fun m => qabs m.total_debit)
    let sum_inflow := qsum inflows
    let sum_outflow := qsum outflows
    let avg_inflow := if inflows = [] then (0 : Q) else qdiv sum_inflow (qofNat inflows.length)
    let avg_outflow := if outflows = [] then (0 : Q) else qdiv sum_outflow (qofNat outflows.length)
    [(S "average_fluctuation", .rat avg_fluctuation),
     (S "net_cash_flow_stability", stability),
     (S "total_foreign_transactions", .rat (qofNat total_foreign_transactions)),
     (S "total_foreign_amount", .rat total_foreign_amount),
     (S "sum_total_inflow", .rat sum_inflow),
     (S "sum_total_outflow", .rat sum_outflow),
     (S "avg_total_inflow", .rat avg_inflow),
     (S "avg_total_outflow", .rat avg_outflow),
     (S "overdraft_frequency", .rat 0),
     (S "overdraft_total_days", .rat 0)]

/-! ### Field extraction and account info -/

def field_value_clean (v : Str) : Str := collapseWs (pyStrip v)

def efv_go (text : Str) : List Str → Option Str
  | [] => none
  | label :: rest =>
    match reSearchHG (reFieldHead label) reFieldGroup text with
    | some g => some (field_value_clean g)
    | none => efv_go text rest

/-- extract_field_value: first label variant whose pattern matches; the value
is group 1 stripped and whitespace-collapsed. -/
def extract_field_value (text : Str) (field : FieldName) (language : Lang) : Option Str :=
  efv_go text (match language with
    | .arabic => arabic_patterns field
    | .english => english_patterns field)

def efvd_go (text : Str) : List Str → Option Str
  | [] => none
  | label :: rest =>
    let found := reFindAllGT (reFieldHead label) reFieldGroup (text.length + 1) text
    if 2 ≤ found.length then some (field_value_clean (found.getD 1 []))
    else if found.length = 1 then some (field_value_clean (found.getD 0 []))
    else efvd_go text rest

/-- extract_field_value_different: all matches of the first productive label;
the second occurrence wins, falling back to a sole first occurrence. -/
def extract_field_value_different (text : Str) (field : FieldName) (language : Lang) :
    Option Str :=
  efvd_go text (match language with
    | .arabic => arabic_patterns field
    | .english => english_patterns field)

/-- A balance entry of the account-info dict: left untouched when the raw
extraction is None or the empty string (the Python truthiness test), else
replaced by clean_amount of it (possibly None). -/
inductive BalField where
  | absent
  | strv (s : Str)
  | numv (q : Q)
deriving DecidableEq, Repr

def toBalField (v : Option Str) : BalField :=
  match v with
  | none => .absent
  | some s =>
    if s = [] then .strv s
    else
      match clean_amount s with
      | some q => .numv q
      | none => .absent

structure AccountInfo where
  customer_name : Option Str
  city : Option Str
  account_number : Option Str
  iban_number : Option Str
  opening_balance : BalField
  closing_balance : BalField
  financial_period : Option Str
deriving DecidableEq, Repr

/-- extract_account_info over the seven account fields, with the
second-occurrence extractor in the alternate amount format. -/
def extract_account_info (text : Str) (language : Lang) (different_amount_format : Bool) :
    AccountInfo :=
  let get := fun (f : FieldName) =>
    if different_amount_format then extract_field_value_different text f language
    else extract_field_value text f language
  { customer_name := get .customer_name
    city := get .city
    account_number := get .account_number
    iban_number := get .iban_number
    opening_balance := toBalField (get .opening_balance)
    closing_balance := toBalField (get .closing_balance)
    financial_period := get .financial_period }

/-! ### Header classification and the pipeline -/

/-- Outcome of extract_header_from_second_page.  With fewer than two pages the
source prints a notice and returns None; with a second page of fewer than
three lines the return statement reads the never-assigned local
is_date_header and raises UnboundLocalError.  (The code after the return
statement is unreachable and not modelled.) -/
inductive HeaderResult where
  | noneRet
  | unbound
  | classified (is_LTR different_amount_format : Bool)
deriving DecidableEq, Repr

def extract_header_from_second_page (text_pages : List Str) : HeaderResult :=
  if text_pages.length < 2 then .noneRet
  else
    let lines := splitChar '\n' (text_pages.getD 1 [])
    if 3 ≤ lines.length then
      let line_3 := pyStrip (lines.getD 2 [])
      .classified
        (isSubstr (S "Date") line_3 || isSubstr rtl_header_marker line_3)
        (isSubstr rtl_header_marker line_3)
    else .unbound

structure Results where
  account_info : AccountInfo
  total_transactions : Nat
  transactions : List Transaction
  monthly_analysis : List (Str × MonthlyStats)
  pages_processed : Nat
  analytics : List (Str × PyNum)
deriving DecidableEq, Repr

/-- Observable outcome of process_bank_statement on a page-text list: the
error record, an uncaught exception of the given kind, or the results
record. -/
inductive PipelineResult where
  | err (msg : Str)
  | exn (kind : Str)
  | ok (r : Results)
deriving DecidableEq, Repr

/-- process_bank_statement from the point where the page texts exist (the PDF
and OCR front end producing them is outside this embedding).  When the header
helper returns None, the immediate subscript header_info of the caller raises
a TypeError; when it raises, the exception propagates — in neither case is an
error record produced.  (The second identical emptiness check of the source
at line 1098 is unreachable and elided.) -/
def process_bank_statement (text_pages : List Str) : PipelineResult :=
  if text_pages = [] then .err (S "Could not extract text from PDF")
  else
    match extract_header_from_second_page text_pages with
    | .noneRet => .exn (S "TypeError")
    | .unbound => .exn (S "UnboundLocalError")
    | .classified is_LTR different_amount_format =>
      let language := detect_language (text_pages.getD 0 [])
      let account_info := extract_account_info (text_pages.getD 0 []) language
        different_amount_format
      let transactions :=
        if is_LTR then extract_transactions text_pages language different_amount_format
        else extract_rtl_transactions text_pages language
      let monthly_analysis := analyze_monthly_transactions transactions
      let analytics := calculate_analytics monthly_analysis
      .ok ⟨account_info, transactions.length, transactions, monthly_analysis,
           text_pages.length, analytics⟩

/-! ### Association lookup on the analytics record -/

def lookupKey : List (Str × PyNum) → Str → Option PyNum
  | [], _ => none
  | (a, v) :: rest, k => if a = k then some v else lookupKey rest k

/-! ### Concrete instances used by the theorems -/

/-- A standard-format LTR page: one dated transaction with three SAR-tagged
amounts. -/
def pageLtrStd : Str := S "2024/06/17\n100.00 SAR 50.00 SAR 500.00 SAR\ngrocery store"

def ltrStdLines : List Str :=
  [S "2024/06/17", S "100.00 SAR 50.00 SAR 500.00 SAR", S "grocery store"]

/-- The transaction the pipeline extracts from pageLtrStd (checked against a
run of the source on the same page). -/
def txLtrStd : Transaction := ⟨.tup 2024 6 17, S "0 0 0 grocery store", 100, 50, 500⟩

/-- An alternate-format page whose first recognized amount is negative. -/
def pageAltNeg : Str := S "2024/06/17\n-20.00 30.00\nshopping mall payment"

/-- The transaction the pipeline extracts from pageAltNeg: its debit is the
negative first amount. -/
def txAltNeg : Transaction :=
  ⟨.tup 2024 6 17, S "0 30 shopping mall payment", ⟨-20, 1⟩, 0, 30⟩

/-- An RTL page whose date token sits two lines after the three amount lines,
well inside the ten-line parse window. -/
def pageRtlNear : Str :=
  S "100.00 SAR\n50.00 SAR\n500.00 SAR\npayment description here\n2024/06/17"

def rtlNearLines : List Str :=
  [S "100.00 SAR", S "50.00 SAR", S "500.00 SAR",
   S "payment description here", S "2024/06/17"]

/-- The transaction extracted from pageRtlNear: the first of the three amounts
becomes the balance and the third the debit. -/
def txRtl : Transaction :=
  ⟨.str (S "2024/06/17"), S "payment description here 2024/06/17", 500, 50, 100⟩

/-- The same RTL content with the date moved to line index 12: inside the
fifty-line date scan but outside the ten-line parse window. -/
def pageRtlFar : Str :=
  S "100.00 SAR\n50.00 SAR\n500.00 SAR\npayment description here\n\n\n\n\n\n\n\n\n2024/06/17"

def rtlFarLines : List Str :=
  [S "100.00 SAR", S "50.00 SAR", S "500.00 SAR", S "payment description here",
   [], [], [], [], [], [], [], [], S "2024/06/17"]

/-- Two identical transaction blocks far enough apart that each context
window sees only its own block. -/
def pageDup : Str :=
  S "2024/06/17\n100.00 SAR 50.00 SAR 500.00 SAR\ngrocery store\n\n\n\n\n\n\n\n2024/06/17\n100.00 SAR 50.00 SAR 500.00 SAR\ngrocery store"

/-- Lines with a valid date but no recognizable amount. -/
def noAmountLines : List Str := [S "2024/06/17", S "no amounts here at all"]

/-- A line with a fixed-recognizer date but no SAR-tagged amount. -/
def rtlNoAmountLines : List Str := [S "2024/06/17 nothing else"]

/-- A transaction whose balance equals its credit, so the reconstructed
opening balance of its month is exactly zero. -/
def txIPS : Transaction := ⟨.tup 2024 6 17, S "IPS transfer", 0, 100, 100⟩

/-- The monthly record the aggregator produces for the single transaction
txIPS (opening balance zero, fluctuation zero). -/
def statsIPS : MonthlyStats :=
  ⟨1, 0, 100, some 0, some 100, some 100, [txIPS], 1, 0, 100, 0, 100, 0⟩

/-! ### Helper lemmas -/

theorem optTraverse_length {α β : Type} {f : α → Option β} :
    ∀ {l : List α} {r : List β}, optTraverse f l = some r → r.length = l.length := by
  intro l
  induction l with
  | nil =>
    intro r h
    simp only [optTraverse, Option.some.injEq] at h
    subst h
    rfl
  | cons a t ih =>
    intro r h
    simp only [optTraverse] at h
    cases hfa : f a with
    | none => rw [hfa] at h; exact Option.noConfusion h
    | some b =>
      cases hot : optTraverse f t with
      | none => rw [hfa, hot] at h; exact Option.noConfusion h
      | some bs =>
        rw [hfa, hot] at h
        simp only [Option.some.injEq] at h
        subst h
        simp [ih hot]

theorem firstSome_mem {α : Type} :
    ∀ {l : List (Option α)} {r : α}, firstSome l = some r → some r ∈ l := by
  intro l
  induction l with
  | nil => intro r h; exact Option.noConfusion h
  | cons a t ih =>
    intro r h
    cases a with
    | some x =>
      simp only [firstSome, Option.some.injEq] at h
      subst h
      exact List.mem_cons_self _ _
    | none =>
      simp only [firstSome] at h
      exact List.mem_cons_of_mem _ (ih h)

theorem try_pattern_sep_ranges {line : Str} {pc : DatePattern} {sep : Char}
    {y m d : Int} (h : try_pattern_sep line pc sep = some (y, m, d)) :
    (1900 ≤ y ∧ y ≤ 2100) ∧ (1 ≤ m ∧ m ≤ 12) ∧ (1 ≤ d ∧ d ≤ 31) := by
  unfold try_pattern_sep at h
  by_cases h1 : sep ∈ line
  case neg => rw [if_neg h1] at h; exact Option.noConfusion h
  rw [if_pos h1] at h
  by_cases h2 : 3 ≤ (splitChar sep line).length
  case neg => rw [if_neg h2] at h; exact Option.noConfusion h
  rw [if_pos h2] at h
  rcases hYS : (splitChar sep line).get? pc.year_position with _ | ys <;> rw [hYS] at h <;>
    rcases hMS : (splitChar sep line).get? pc.month_position with _ | ms <;> rw [hMS] at h <;>
    rcases hDS : (splitChar sep line).get? pc.day_position with _ | ds <;> rw [hDS] at h <;>
    try exact Option.noConfusion h
  dsimp only at h
  rcases hYI : pyInt ys with _ | yv <;> rw [hYI] at h <;>
    rcases hMI : pyInt ms with _ | mv <;> rw [hMI] at h <;>
    rcases hDI : pyInt ds with _ | dv <;> rw [hDI] at h <;>
    try exact Option.noConfusion h
  dsimp only at h
  by_cases hg : 1900 ≤ yv ∧ yv ≤ 2100 ∧ 1 ≤ mv ∧ mv ≤ 12 ∧ 1 ≤ dv ∧ dv ≤ 31
  case neg => rw [if_neg hg] at h; exact Option.noConfusion h
  rw [if_pos hg] at h
  simp only [Option.some.injEq, Prod.mk.injEq] at h
  obtain ⟨hy, hm, hd⟩ := h
  subst hy; subst hm; subst hd
  exact ⟨⟨hg.1, hg.2.1⟩, ⟨hg.2.2.1, hg.2.2.2.1⟩, ⟨hg.2.2.2.2.1, hg.2.2.2.2.2⟩⟩

theorem date_from_line_ranges {line : Str} {y m d : Int}
    (h : date_from_line line = some (y, m, d)) :
    (1900 ≤ y ∧ y ≤ 2100) ∧ (1 ≤ m ∧ m ≤ 12) ∧ (1 ≤ d ∧ d ≤ 31) := by
  unfold date_from_line at h
  have h1 := firstSome_mem h
  rw [List.mem_map] at h1
  obtain ⟨pc, _, hpc⟩ := h1
  have h2 := firstSome_mem hpc
  rw [List.mem_map] at h2
  obtain ⟨sep, _, hsep⟩ := h2
  exact try_pattern_sep_ranges hsep

theorem edft_go_ranges :
    ∀ {ls : List Str} {y m d : Int}, edft_go ls = some (y, m, d) →
      (1900 ≤ y ∧ y ≤ 2100) ∧ (1 ≤ m ∧ m ≤ 12) ∧ (1 ≤ d ∧ d ≤ 31) := by
  intro ls
  induction ls with
  | nil => intro y m d h; exact Option.noConfusion h
  | cons l t ih =>
    intro y m d h
    simp only [edft_go] at h
    split at h
    · exact ih h
    · cases hdl : date_from_line (pyStrip l) with
      | none => rw [hdl] at h; exact ih h
      | some r =>
        rw [hdl] at h
        simp only [Option.some.injEq] at h
        subst h
        exact date_from_line_ranges hdl

/-! ### Claim theorems -/

/-- Claim C1 (code bug): the specification promises a single error record for
every input of fewer than two pages, but only the zero-page case produces the
error record; a one-page input makes extract_header_from_second_page return
its None sentinel, which process_bank_statement immediately subscripts,
raising an uncaught TypeError instead of returning an error record. -/
theorem c1_short_input_behavior :
    process_bank_statement [] = .err (S "Could not extract text from PDF") ∧
    process_bank_statement [S "Account Statement page one"] = .exn (S "TypeError") ∧
    (∀ r : Results, process_bank_statement [S "Account Statement page one"] ≠ .ok r) ∧
    (∀ msg : Str, process_bank_statement [S "Account Statement page one"] ≠ .err msg) := by
  refine ⟨by decide, by decide, ?_, ?_⟩
  · intro r h
    rw [show process_bank_statement [S "Account Statement page one"] = .exn (S "TypeError")
      from by decide] at h
    exact PipelineResult.noConfusion h
  · intro msg h
    rw [show process_bank_statement [S "Account Statement page one"] = .exn (S "TypeError")
      from by decide] at h
    exact PipelineResult.noConfusion h

/-- Claim C3, counterexample: with the default templates the documented
line with trailing text after the date token is rejected, because the day
component of the slash-split is the string beginning with one-seven followed
by the description, which int() refuses; the claim says it parses to
year 2024, month 6, day 17. -/
theorem c3_counterexample :
    extract_date_from_text (S "2024/06/17 description") = none := by decide

/-- Claim C3 (amended): a line carrying the bare date token parses to
(2024, 6, 17); the out-of-range month line is rejected; and every accepted
3-part candidate satisfies year between 1900 and 2100, month between 1
and 12, day between 1 and 31.  The amendment: trailing non-numeric text in a
date component makes the whole line candidate fail, so the documented line
with a trailing description yields no date. -/
theorem c3_amended :
    extract_date_from_text (S "2024/06/17") = some (2024, 6, 17) ∧
    extract_date_from_text (S "2100/13/01") = none ∧
    (∀ text y m d, extract_date_from_text text = some (y, m, d) →
      (1900 ≤ y ∧ y ≤ 2100) ∧ (1 ≤ m ∧ m ≤ 12) ∧ (1 ≤ d ∧ d ≤ 31)) := by
  refine ⟨by decide, by decide, ?_⟩
  intro text y m d h
  exact edft_go_ranges h

/-- Claim C3, witness: the general range bound of the amended claim applied
to the accepted bare-date line. -/
theorem c3_witness :
    ((1900 : Int) ≤ 2024 ∧ (2024 : Int) ≤ 2100) ∧
    ((1 : Int) ≤ 6 ∧ (6 : Int) ≤ 12) ∧ ((1 : Int) ≤ 17 ∧ (17 : Int) ≤ 31) :=
  c3_amended.2.2 (S "2024/06/17") 2024 6 17 (by decide)

/-- Claim C10 (confirmed): with four or more amounts parse_amount_sequence
returns exactly the first three; the fourth and all later amounts have no
effect on the debit, credit or balance. -/
theorem c10_first_three_only :
    ∀ (a b c d : Q) (rest : List Q),
      parse_amount_sequence (a :: b :: c :: d :: rest) = (a, b, c) := by
  intro a b c d rest
  rfl

/-- Claim C5 (confirmed): parse_amount_sequence maps three or more amounts to
the first three (read as debit, credit, balance by the LTR caller and as
balance, credit, debit by the RTL caller, witnessed on extracted
transactions), two amounts to (first, 0, second), one amount to (0, 0, it);
the literal cases of the claim hold; and an empty amount list makes either
parser reject the candidate. -/
theorem c5_disambiguation :
    (∀ (a b c : Q) (rest : List Q), parse_amount_sequence (a :: b :: c :: rest) = (a, b, c)) ∧
    (∀ a b : Q, parse_amount_sequence [a, b] = (a, 0, b)) ∧
    (∀ a : Q, parse_amount_sequence [a] = (0, 0, a)) ∧
    parse_amount_sequence [100, 50, 500] = (100, 50, 500) ∧
    parse_amount_sequence [75] = (0, 0, 75) ∧
    extract_transactions [pageLtrStd] .english false = [txLtrStd] ∧
    (txLtrStd.debit = 100 ∧ txLtrStd.credit = 50 ∧ txLtrStd.balance = 500) ∧
    extract_rtl_transactions [pageRtlNear] .english = [txRtl] ∧
    (txRtl.balance = 100 ∧ txRtl.credit = 50 ∧ txRtl.debit = 500) ∧
    (∀ (lines : List Str) (i : Nat) (language : Lang) (fmt : Bool),
      ltr_amounts fmt (joinWith [' '] (ltr_window lines i)) = some [] →
      parse_transaction_line lines i language fmt = none) ∧
    (∀ (lines : List Str) (i : Nat) (language : Lang),
      sar_tagged_amounts (joinWith [' '] (ltr_window lines i)) = some [] →
      parse_transaction_line_rtl lines i language = none) := by
  refine ⟨fun a b c rest => rfl, ?_, fun a => rfl, by decide, by decide, by decide,
    by decide, by decide, by decide, ?_, ?_⟩
  · intro a b
    show (if a < b then (a, 0, b) else (a, 0, b)) = (a, (0 : Q), b)
    split <;> rfl
  · intro lines i language fmt h
    simp only [parse_transaction_line]
    cases hdt : extract_date_from_text (lines.getD i []) with
    | none => rfl
    | some dt => rw [h]; rfl
  · intro lines i language h
    simp only [parse_transaction_line_rtl]
    cases hds : extract_date_from_line_rtl (joinWith [' '] (ltr_window lines i)) with
    | none => rfl
    | some ds => rw [h]; rfl

/-- Claim C5, witness: candidates whose window yields no amounts are
rejected by both parsers. -/
theorem c5_witness :
    parse_transaction_line noAmountLines 0 .english false = none ∧
    parse_transaction_line_rtl rtlNoAmountLines 0 .english = none :=
  ⟨c5_disambiguation.2.2.2.2.2.2.2.2.2.1 noAmountLines 0 .english false (by decide),
   c5_disambiguation.2.2.2.2.2.2.2.2.2.2 rtlNoAmountLines 0 .english (by decide)⟩

/-- Claim C6 (confirmed): in the candidate-accept step shared by both
segmenters, a candidate whose date and description equal those of the last
accepted transaction and whose balance differs from it by less than 0.01 is
discarded; on a page carrying the same transaction block twice, only one
transaction is retained. -/
theorem c6_dedup :
    (∀ (txs : List Transaction) (t last : Transaction),
      txs.getLast? = some last → last.date = t.date → last.description = t.description →
      qabs (qsub last.balance t.balance) < centQ →
      accept_candidate txs t = (txs, false)) ∧
    extract_transactions [pageDup] .english false = [txLtrStd] := by
  constructor
  · intro txs t last hlast hdate hdesc hbal
    unfold accept_candidate
    rw [hlast]
    exact if_pos ⟨hdate, hdesc, hbal⟩
  · decide

/-- Claim C6, witness: the discard rule applied to a repeat of the concrete
extracted transaction. -/
theorem c6_witness :
    accept_candidate [txLtrStd] txLtrStd = ([txLtrStd], false) :=
  c6_dedup.1 [txLtrStd] txLtrStd txLtrStd (by decide) rfl rfl (by decide)

/-- Claim C2, counterexample: in the alternate amount format a recognized
pair beginning with a negative amount is accepted with that negative value as
the debit and zero credit, so the accepted transaction satisfies neither
debit greater than zero nor credit greater than zero, contradicting the
claimed invariant as stated. -/
theorem c2_counterexample :
    extract_transactions [pageAltNeg] .english true = [txAltNeg] ∧
    ¬(0 < txAltNeg.debit ∨ 0 < txAltNeg.credit) := by
  exact ⟨by decide, by decide⟩

/-- Claim C2 (amended): every transaction either parser emits (hence every
transaction a segmenter appends) has debit and credit not both equal to
zero; the stronger reading debit positive or credit positive fails, since a
negative debit with zero credit passes the zero-equality check of the
source. -/
theorem c2_zero_rejection :
    (∀ (lines : List Str) (i : Nat) (language : Lang) (fmt : Bool) (t : Transaction),
      parse_transaction_line lines i language fmt = some t →
      ¬(t.debit = 0 ∧ t.credit = 0)) ∧
    (∀ (lines : List Str) (i : Nat) (language : Lang) (t : Transaction),
      parse_transaction_line_rtl lines i language = some t →
      ¬(t.debit = 0 ∧ t.credit = 0)) := by
  constructor
  · intro lines i language fmt t h
    simp only [parse_transaction_line] at h
    cases hdt : extract_date_from_text (lines.getD i []) with
    | none => rw [hdt] at h; exact Option.noConfusion h
    | some dt =>
      rw [hdt] at h
      cases ham : ltr_amounts fmt (joinWith [' '] (ltr_window lines i)) with
      | none => rw [ham] at h; exact Option.noConfusion h
      | some amounts =>
        rw [ham] at h
        dsimp only at h
        by_cases hempty : amounts = []
        · rw [if_pos hempty] at h; exact Option.noConfusion h
        · rw [if_neg hempty] at h
          by_cases hzero : (parse_amount_sequence amounts).1 = 0 ∧
              (parse_amount_sequence amounts).2.1 = 0
          · rw [if_pos hzero] at h; exact Option.noConfusion h
          · rw [if_neg hzero] at h
            by_cases hdesc :
                pyStrip (extract_transaction_description (ltr_window lines i) amounts) = []
            · rw [if_pos hdesc] at h; exact Option.noConfusion h
            · rw [if_neg hdesc] at h
              injection h with h2
              subst h2
              exact hzero
  · intro lines i language t h
    simp only [parse_transaction_line_rtl] at h
    cases hds : extract_date_from_line_rtl (joinWith [' '] (ltr_window lines i)) with
    | none => rw [hds] at h; exact Option.noConfusion h
    | some ds =>
      rw [hds] at h
      cases ham : sar_tagged_amounts (joinWith [' '] (ltr_window lines i)) with
      | none => rw [ham] at h; exact Option.noConfusion h
      | some amounts =>
        rw [ham] at h
        dsimp only at h
        by_cases hempty : amounts = []
        · rw [if_pos hempty] at h; exact Option.noConfusion h
        · rw [if_neg hempty] at h
          by_cases hzero : (parse_amount_sequence amounts).2.2 = 0 ∧
              (parse_amount_sequence amounts).2.1 = 0
          · rw [if_pos hzero] at h; exact Option.noConfusion h
          · rw [if_neg hzero] at h
            by_cases hdesc : pyStrip (extract_rtl_transaction_description
                (ltr_window lines i) amounts ds) = []
            · rw [if_pos hdesc] at h; exact Option.noConfusion h
            · rw [if_neg hdesc] at h
              injection h with h2
              subst h2
              exact hzero

/-- Claim C2, witness: the amended invariant on concretely accepted LTR and
RTL transactions. -/
theorem c2_witness :
    ¬(txLtrStd.debit = 0 ∧ txLtrStd.credit = 0) ∧
    ¬(txRtl.debit = 0 ∧ txRtl.credit = 0) :=
  ⟨c2_zero_rejection.1 ltrStdLines 0 .english false txLtrStd (by decide),
   c2_zero_rejection.2 rtlNearLines 0 .english txRtl (by decide)⟩

/-- Claim C7, counterexample: an anchor line carrying a currency-tagged
amount, exactly three collected amounts, and a date token at line index 12 —
inside the fifty-line scan, whose date search succeeds — yet the RTL
segmenter emits no transaction, because parse_transaction_line_rtl re-reads
the date from the ten-line window only; the identical page with the date two
lines below the amounts is accepted, so the other acceptance conditions
hold. -/
theorem c7_counterexample :
    extract_single_amount_rtl (S "100.00 SAR") = some 100 ∧
    rtlCollect rtlFarLines 0 100 = [100, 50, 500] ∧
    rtl_find_date rtlFarLines 0 = some (S "2024/06/17") ∧
    extract_rtl_transactions [pageRtlFar] .english = [] := by
  exact ⟨by decide, by decide, by decide, by decide⟩

/-- Claim C7 (amended): a three-amount RTL candidate is accepted only when
the date token also lies inside the ten-line parse window
(search_lines_after): whenever the joined ten-line window holds no date, the
candidate parser returns nothing, however close the fifty-line scan date may
be; with the date inside the window the candidate is accepted. -/
theorem c7_date_window :
    (∀ (lines : List Str) (i : Nat) (language : Lang),
      extract_date_from_line_rtl (joinWith [' '] (ltr_window lines i)) = none →
      parse_transaction_line_rtl lines i language = none) ∧
    extract_rtl_transactions [pageRtlNear] .english = [txRtl] := by
  constructor
  · intro lines i language h
    simp only [parse_transaction_line_rtl]
    rw [h]
  · decide

/-- Claim C7, witness: the ten-line window of the far-date page holds no
date, so its anchored candidate parses to nothing. -/
theorem c7_witness : parse_transaction_line_rtl rtlFarLines 0 .english = none :=
  c7_date_window.1 rtlFarLines 0 .english (by decide)

/-- Claim C8 (confirmed): the alternate-format pre-step maps every recognized
pair as stated: negative first and positive second insert a zero between
them, two positives reorder to zero, minimum, maximum, and any other pair is
kept unchanged; the literal pair of the claim becomes
[-20.00, 0.00, 30.00]. -/
theorem c8_pre_step :
    (∀ (full_text : Str) (a b : Q), altPairFloats full_text = some [a, b] →
      extract_amounts full_text = some (
        if a < 0 ∧ 0 < b then [a, 0, b]
        else if 0 < a ∧ 0 < b then [0, qmin a b, qmax a b]
        else [a, b])) ∧
    extract_amounts (S "-20.00 30.00") = some [⟨-20, 1⟩, 0, 30] := by
  constructor
  · intro full_text a b h
    have hlen : ([a, b] : List Q).length = (altPairStrings full_text).length :=
      optTraverse_length h
    simp only [List.length] at hlen
    simp only [extract_amounts]
    rw [if_neg (by omega)]
    rw [h]
    show (if a < 0 ∧ 0 < b then some [a, 0, b]
          else if 0 < a ∧ 0 < b then some [0, qmin a b, qmax a b]
          else some [a, b]) =
        some (if a < 0 ∧ 0 < b then [a, 0, b]
          else if 0 < a ∧ 0 < b then [0, qmin a b, qmax a b]
          else [a, b])
    by_cases h1 : a < 0 ∧ 0 < b
    · simp only [if_pos h1]
    · simp only [if_neg h1]
      by_cases h2 : 0 < a ∧ 0 < b
      · simp only [if_pos h2]
      · simp only [if_neg h2]
  · decide

/-- Claim C8, witness: the pre-step applied to a concrete positive pair
reorders it to zero, minimum, maximum. -/
theorem c8_witness : extract_amounts (S "1.00 2.00") = some [0, 1, 2] := by
  have h := c8_pre_step.1 (S "1.00 2.00") 1 2 (by decide)
  rw [h]
  decide

/-- The fluctuation guard of the monthly finalizer: a month whose opening
balance is absent or zero has fluctuation zero. -/
theorem monthlyFinalize_fluct (s : MonthlyStats) :
    (monthlyFinalize s).opening_balance = none ∨
      (monthlyFinalize s).opening_balance = some 0 →
    (monthlyFinalize s).fluctuation = 0 := by
  unfold monthlyFinalize
  cases sortTx s.transactions with
  | nil => intro _; rfl
  | cons f r =>
    intro hop
    dsimp only at hop ⊢
    rcases hop with hop | hop
    · exact Option.noConfusion hop
    · have h0 : qadd (qsub f.balance f.credit) f.debit = 0 := Option.some.inj hop
      rw [if_neg (not_not_intro h0)]

/-- Claim C9 (confirmed): every monthly record the aggregator produces with a
zero or absent opening balance has fluctuation zero, so the fluctuation
division never divides by zero. -/
theorem c9_fluctuation_guard :
    ∀ (ts : List Transaction) (ym : Str) (st : MonthlyStats),
      (ym, st) ∈ analyze_monthly_transactions ts →
      st.opening_balance = none ∨ st.opening_balance = some 0 →
      st.fluctuation = 0 := by
  intro ts ym st hmem hop
  unfold analyze_monthly_transactions at hmem
  rw [List.mem_map] at hmem
  obtain ⟨p, _, hp⟩ := hmem
  have hst : st = monthlyFinalize p.2 := by
    have h2 := congrArg Prod.snd hp
    exact h2.symm
  subst hst
  exact monthlyFinalize_fluct p.2 hop

/-- Claim C9, witness: a month whose single transaction has balance equal to
credit reconstructs an opening balance of exactly zero and reports
fluctuation zero. -/
theorem c9_witness : statsIPS.fluctuation = 0 :=
  c9_fluctuation_guard [txIPS] (S "2024-06") statsIPS (by decide) (by decide)

/-- Claim C4, counterexample: the analytics record for an empty monthly
mapping does not carry the same field set as the record for a non-empty one —
the four inflow and outflow fields are missing from the empty-input
record. -/
theorem c4_counterexample :
    (calculate_analytics [(S "2024-06", initStats)]).map Prod.fst ≠
    (calculate_analytics []).map Prod.fst := by decide

/-- Claim C4 (amended): for empty input calculate_analytics returns a
zero-filled record of exactly six fields; for every non-empty input it
returns exactly the ten fields of the full record (a strict superset of the
six); and the overdraft frequency and overdraft total days fields are zero
on every input. -/
theorem c4_analytics_fields :
    calculate_analytics [] =
      [(S "average_fluctuation", .rat 0),
       (S "net_cash_flow_stability", .rat 0),
       (S "total_foreign_transactions", .rat 0),
       (S "total_foreign_amount", .rat 0),
       (S "overdraft_frequency", .rat 0),
       (S "overdraft_total_days", .rat 0)] ∧
    (∀ (p : Str × MonthlyStats) (ms : List (Str × MonthlyStats)),
      (calculate_analytics (p :: ms)).map Prod.fst =
        [S "average_fluctuation", S "net_cash_flow_stability",
         S "total_foreign_transactions", S "total_foreign_amount",
         S "sum_total_inflow", S "sum_total_outflow",
         S "avg_total_inflow", S "avg_total_outflow",
         S "overdraft_frequency", S "overdraft_total_days"]) ∧
    (∀ ma : List (Str × MonthlyStats),
      lookupKey (calculate_analytics ma) (S "overdraft_frequency") = some (.rat 0) ∧
      lookupKey (calculate_analytics ma) (S "overdraft_total_days") = some (.rat 0)) := by
  refine ⟨by decide, ?_, ?_⟩
  · intro p ms
    rfl
  · intro ma
    cases ma with
    | nil => exact ⟨by decide, by decide⟩
    | cons p ms => exact ⟨rfl, rfl⟩

end LedgerLens
